import Mathlib

/-!
Verification development for the Cohesity Helios integration
(`Packs/CohesityHelios/Integrations/CohesityHelios/CohesityHelios.py`).

The Python module is shallowly embedded: pure helpers become Lean functions,
Python dicts used only through `get`/`[]` become functions `String → Option _`,
the HTTP client calls become explicit result parameters and an effect trace,
and the `demisto` host API (last-run store, incident sink) becomes an explicit
effect list.  Machine times are modelled as `Int`/`Nat` (epoch milliseconds /
microseconds), matching Python's arbitrary-precision `int`.
-/

/-- The ransomware alert code hardcoded in `Client.get_ransomware_alerts`. -/
def ransomwareAlertCode : String := "CE01516011"

/-- `DATE_FORMAT = '%Y-%m-%dT%H:%M:%SZ'`; its semantics is modelled by the
formatter `fromtimestamp_strftime` below. -/
def DATE_FORMAT : String := "%Y-%m-%dT%H:%M:%SZ"

/-- The nested `alertDocument` object of an alert. -/
structure AlertDocument where
  alertName : String
  alertDescription : String
  alertCause : String
deriving DecidableEq, Repr

/-- An alert record as the integration reads it from the service response.
`propertyList` is the ordered list of `{key, value}` pairs; `latestTimestampUsecs`
is optional because the code reads it with `alert.get("latestTimestampUsecs", 0)`. -/
structure Alert where
  id : String
  alertCode : String
  severity : String
  alertState : String
  latestTimestampUsecs : Option Nat
  propertyList : List (String × String)
  alertDocument : AlertDocument
deriving DecidableEq, Repr

/-- `_get_property_dict`: builds a Python dict from the list of
`{key, value}` property pairs; each assignment overwrites the key's previous
value.  The dict is modelled as a lookup function (the integration only ever
reads it through `get` / `[]`). -/
def _get_property_dict (property_list : List (String × String)) : String → Option String :=
  property_list.foldl (fun d p => fun k => if k = p.1 then some p.2 else d k) (fun _ => none)

/-- The XSOAR incident-severity constants.  Modelled from the spec:
`IncidentSeverity` comes from CommonServerPython, which is not part of this
repository's sources; the spec names the values INFO, LOW, HIGH, UNKNOWN
(MEDIUM and CRITICAL exist but are unused here). -/
inductive IncidentSeverity where
  | UNKNOWN
  | INFO
  | LOW
  | MEDIUM
  | HIGH
  | CRITICAL
deriving DecidableEq, Repr

/-- The dict literal inside `convert_to_demisto_severity_int`. -/
def severityMapping : List (String × IncidentSeverity) :=
  [("kInfo", IncidentSeverity.INFO),
   ("kWarning", IncidentSeverity.LOW),
   ("kCritical", IncidentSeverity.HIGH)]

/-- `convert_to_demisto_severity_int`: dictionary lookup with default
`IncidentSeverity.UNKNOWN` (Python `dict.get(severity, UNKNOWN)`). -/
def convert_to_demisto_severity_int (severity : String) : IncidentSeverity :=
  ((severityMapping.find? (fun p => p.1 = severity)).map Prod.snd).getD IncidentSeverity.UNKNOWN

/-- The response-filtering loop of `Client.get_ransomware_alerts`
(lines 69-75): keep exactly the alerts whose `alertCode` is the fixed
ransomware code, in response order. -/
def get_ransomware_alerts (resp : List Alert) : List Alert :=
  resp.foldl (fun acc alert => if alert.alertCode = ransomwareAlertCode then acc ++ [alert] else acc) []

section FilterLemmas

theorem foldl_append_filter (p : Alert → Prop) [DecidablePred p] (l : List Alert) :
    ∀ acc : List Alert,
      l.foldl (fun acc a => if p a then acc ++ [a] else acc) acc = acc ++ l.filter (fun a => decide (p a)) := by
  induction l with
  | nil => intro acc; simp
  | cons a t ih =>
    intro acc
    by_cases h : p a
    · simp [List.foldl_cons, List.filter_cons, h, ih]
    · simp [List.foldl_cons, List.filter_cons, h, ih]

theorem get_ransomware_alerts_eq_filter (resp : List Alert) :
    get_ransomware_alerts resp = resp.filter (fun a => decide (a.alertCode = ransomwareAlertCode)) := by
  simpa using foldl_append_filter (fun a => a.alertCode = ransomwareAlertCode) resp []

end FilterLemmas

/-- C1: `Client.get_ransomware_alerts` returns exactly the alerts of the
response whose `alertCode` equals the fixed ransomware code `CE01516011`, in
response order (it equals the order-preserving filter of the response), and no
alert with another `alertCode` is in the returned list. -/
theorem claim_C1_ransomware_filter_exact (resp : List Alert) :
    get_ransomware_alerts resp = resp.filter (fun a => decide (a.alertCode = ransomwareAlertCode)) ∧
    (∀ a : Alert, a ∈ get_ransomware_alerts resp ↔ (a ∈ resp ∧ a.alertCode = ransomwareAlertCode)) ∧
    (∀ a : Alert, a ∈ get_ransomware_alerts resp → ¬ a.alertCode ≠ ransomwareAlertCode) := by
  refine ⟨get_ransomware_alerts_eq_filter resp, ?_, ?_⟩
  · intro a
    rw [get_ransomware_alerts_eq_filter]
    simp [List.mem_filter]
  · intro a ha
    rw [get_ransomware_alerts_eq_filter] at ha
    simp [List.mem_filter] at ha
    simpa using ha.2

/-- C8: `convert_to_demisto_severity_int` is total (a Lean function) and maps
`kInfo` to INFO, `kWarning` to LOW, `kCritical` to HIGH, and every other string
to UNKNOWN. -/
theorem claim_C8_severity_mapping_total (s : String) :
    convert_to_demisto_severity_int "kInfo" = IncidentSeverity.INFO ∧
    convert_to_demisto_severity_int "kWarning" = IncidentSeverity.LOW ∧
    convert_to_demisto_severity_int "kCritical" = IncidentSeverity.HIGH ∧
    (s ≠ "kInfo" → s ≠ "kWarning" → s ≠ "kCritical" →
      convert_to_demisto_severity_int s = IncidentSeverity.UNKNOWN) := by
  refine ⟨rfl, rfl, rfl, ?_⟩
  intro h1 h2 h3
  simp [convert_to_demisto_severity_int, severityMapping, List.find?,
    Ne.symm h1, Ne.symm h2, Ne.symm h3]

/-- Witness for C8 at the concrete unmapped severity string `kBogus`. -/
theorem claim_C8_severity_mapping_total_witness :
    convert_to_demisto_severity_int "kInfo" = IncidentSeverity.INFO ∧
    convert_to_demisto_severity_int "kWarning" = IncidentSeverity.LOW ∧
    convert_to_demisto_severity_int "kCritical" = IncidentSeverity.HIGH ∧
    convert_to_demisto_severity_int "kBogus" = IncidentSeverity.UNKNOWN := by
  obtain ⟨h1, h2, h3, h4⟩ := claim_C8_severity_mapping_total "kBogus"
  exact ⟨h1, h2, h3, h4 (by decide) (by decide) (by decide)⟩

section PropertyDictLemmas

theorem property_dict_last_write (property_list : List (String × String)) :
    ∀ (d : String → Option String) (k : String),
      (property_list.foldl (fun d p => fun k => if k = p.1 then some p.2 else d k) d) k =
        match property_list.reverse.find? (fun p => p.1 = k) with
        | some p => some p.2
        | none => d k := by
  induction property_list with
  | nil => intro d k; simp
  | cons a t ih =>
    intro d k
    rw [List.foldl_cons, ih, List.reverse_cons, List.find?_append]
    cases hfind : t.reverse.find? (fun p => decide (p.1 = k)) with
    | some p => simp [hfind]
    | none =>
      by_cases hk : a.1 = k
      · simp [hfind, List.find?, hk]
      · simp [hfind, List.find?, hk, Ne.symm hk]

theorem head_filter_eq_find (p : String × String → Bool) (l : List (String × String)) :
    (l.filter p).head? = l.find? p := by
  induction l with
  | nil => simp
  | cons a t ih =>
    by_cases h : p a
    · simp [List.filter_cons, List.find?, h]
    · simp [List.filter_cons, List.find?, h, ih]

theorem getLast_filter_eq_find_reverse (p : String × String → Bool) (l : List (String × String)) :
    (l.filter p).getLast? = l.reverse.find? p := by
  rw [← head_filter_eq_find p l.reverse, List.filter_reverse, List.head?_reverse]

end PropertyDictLemmas

/-- C9: the property-list flattener is a pure function from `{key, value}`
pairs to a key-to-value mapping: every key maps to the value of its last
occurrence in the list (later occurrences overwrite earlier ones), and every
key occurring in the list appears in the result. -/
theorem claim_C9_property_dict_last_wins (property_list : List (String × String)) (k : String) :
    _get_property_dict property_list k =
      ((property_list.filter (fun p => p.1 = k)).getLast?).map Prod.snd ∧
    ((∃ v, (k, v) ∈ property_list) → (_get_property_dict property_list k).isSome) := by
  have hmain : _get_property_dict property_list k =
      ((property_list.filter (fun p => p.1 = k)).getLast?).map Prod.snd := by
    rw [_get_property_dict, property_dict_last_write property_list (fun _ => none) k,
      getLast_filter_eq_find_reverse]
    cases hfind : property_list.reverse.find? (fun p => decide (p.1 = k)) with
    | some p => simp
    | none => simp
  refine ⟨hmain, ?_⟩
  rintro ⟨v, hv⟩
  rw [hmain]
  have hmem : (k, v) ∈ property_list.filter (fun p => decide (p.1 = k)) := by
    simp [List.mem_filter, hv]
  have hne : property_list.filter (fun p => decide (p.1 = k)) ≠ [] :=
    List.ne_nil_of_mem hmem
  have hsome : ((property_list.filter (fun p => decide (p.1 = k))).getLast?).isSome := by
    rw [List.getLast?_isSome]; exact hne
  simpa [Option.isSome_map] using hsome

/-- Witness for C9 at a concrete list with a duplicate key. -/
theorem claim_C9_property_dict_last_wins_witness :
    _get_property_dict [("a", "1"), ("b", "2"), ("a", "3")] "a" =
      (([("a", "1"), ("b", "2"), ("a", "3")].filter (fun p => p.1 = "a")).getLast?).map Prod.snd ∧
    (_get_property_dict [("a", "1"), ("b", "2"), ("a", "3")] "a").isSome := by
  obtain ⟨h1, h2⟩ := claim_C9_property_dict_last_wins [("a", "1"), ("b", "2"), ("a", "3")] "a"
  exact ⟨h1, h2 ⟨"1", by decide⟩⟩

/-- The flattened `object` property of an alert, read the way both command
loops read it: `property_dict.get('object', "")`. -/
def alertObjectName (alert : Alert) : String :=
  (_get_property_dict alert.propertyList "object").getD ""

/-- The restore request payload built by `restore_latest_clean_snapshot`
(the `request_payload` dict): the single entry of its `objects` array is
inlined as the last five fields; `prefixStr`/`suffixStr` model the
`vmwareParameters` `prefix`/`suffix` entries. -/
structure RestorePayload where
  name : String
  taskType : String
  poweredOn : Bool
  prefixStr : String
  suffixStr : String
  jobId : Int
  jobRunId : Int
  startedTimeUsecs : Int
  sourceName : String
  protectionSourceId : Int
deriving DecidableEq, Repr

/-- A state-changing Helios client call (PATCH suppress, POST restore,
PATCH resolve) as recorded in a command's effect trace. -/
inductive HeliosCall where
  | suppressCall (alertId : String)
  | restoreCall (clusterId : String) (payload : RestorePayload)
  | resolveCall (alertId : String)
deriving DecidableEq, Repr

/-- Python `d[k]` on a flattened property dict: `KeyError` when the key is
absent. -/
def pyDictIndex (d : String → Option String) (k : String) : Except String String :=
  match d k with
  | some v => Except.ok v
  | none => Except.error ("KeyError: " ++ k)

/-- Decimal digit-string parser used to model Python `int` on property value
strings: `none` unless the list is a non-empty run of decimal digits. -/
def parseDigits? (cs : List Char) : Option Nat :=
  if cs.isEmpty then none
  else cs.foldl (fun acc c =>
    match acc with
    | none => none
    | some n => if c.isDigit then some (n * 10 + (c.toNat - 48)) else none) (some 0)

/-- Python `int(s)` on a property value string: parses an optionally signed
decimal integer and raises on any other value. -/
def pyInt (s : String) : Except String Int :=
  match s.data with
  | '-' :: rest =>
    match parseDigits? rest with
    | some n => Except.ok (-(n : Int))
    | none => Except.error ("invalid literal for int with base 10: " ++ s)
  | cs =>
    match parseDigits? cs with
    | some n => Except.ok ((n : Int))
    | none => Except.error ("invalid literal for int with base 10: " ++ s)

/-- The payload construction of `restore_latest_clean_snapshot` (the
`request_payload` dict and `cluster_id` lookup): reads the required keys from
the matched alert's property dict, coercing the typed ones with `int`; a
missing key or non-numeric value raises before any call is issued.
`get_current_millis()` is passed in as `nowMillis`. -/
def buildRestoreRequest (nowMillis : Int) (restore_properties : String → Option String) :
    Except String (RestorePayload × String) := do
  let obj ← pyDictIndex restore_properties "object"
  let jobId ← pyInt (← pyDictIndex restore_properties "jobId")
  let jobRunId ← pyInt (← pyDictIndex restore_properties "jobInstanceId")
  let startedTimeUsecs ← pyInt (← pyDictIndex restore_properties "jobStartTimeUsecs")
  let sourceName ← pyDictIndex restore_properties "object"
  let protectionSourceId ← pyInt (← pyDictIndex restore_properties "entityId")
  let cluster_id ← pyDictIndex restore_properties "cid"
  Except.ok
    ({ name := "Cortex_XSOAR_triggered_restore_task_" ++ obj
       taskType := "kRecoverVMs"
       poweredOn := true
       prefixStr := "Recover-"
       suffixStr := "-VM-" ++ toString nowMillis
       jobId := jobId
       jobRunId := jobRunId
       startedTimeUsecs := startedTimeUsecs
       sourceName := sourceName
       protectionSourceId := protectionSourceId }, cluster_id)

/-- The scan loop of `ignore_ransomware_anomaly_command`: `alert_id` starts
as `""` and the loop breaks at the first alert whose flattened `object`
property (default `""`) equals the target name, storing that alert's id. -/
def ignoreScanAlertId (alerts : List Alert) (object_name : String) : String :=
  match alerts with
  | [] => ""
  | alert :: rest =>
    if alertObjectName alert = object_name then alert.id
    else ignoreScanAlertId rest object_name

/-- `ignore_ransomware_anomaly_command`: `alerts` is the fetched list returned
by `client.get_ransomware_alerts()`; `suppressResult` is the outcome of the
PATCH suppress call.  The result pairs the Python return value (or the raised
error message) with the trace of state-changing client calls issued. -/
def ignore_ransomware_anomaly_command (suppressResult : Except String Unit)
    (alerts : List Alert) (object_name : String) : Except String String × List HeliosCall :=
  let alert_id := ignoreScanAlertId alerts object_name
  if alert_id = "" then
    (Except.error ("CohesityHelios error: no anomalous object found by the given name: " ++
      object_name ++ ". "), [])
  else
    match suppressResult with
    | Except.error e => (Except.error e, [HeliosCall.suppressCall alert_id])
    | Except.ok _ =>
      (Except.ok ("Ignored object " ++ object_name ++ "."), [HeliosCall.suppressCall alert_id])

/-- The scan loop of `restore_latest_clean_snapshot`: the first alert with
severity `kCritical` and state `kOpen` whose flattened `object` property
(default `""`) equals the target name. -/
def restoreScan (alerts : List Alert) (object_name : String) : Option Alert :=
  match alerts with
  | [] => none
  | alert :: rest =>
    if alert.severity = "kCritical" ∧ alert.alertState = "kOpen" then
      if alertObjectName alert = object_name then some alert
      else restoreScan rest object_name
    else restoreScan rest object_name

/-- `restore_latest_clean_snapshot`: `alerts` is the fetched list returned by
`client.get_ransomware_alerts()`; `restoreResult`/`resolveResult` are the
outcomes of the POST restore and PATCH resolve calls.  The result pairs the
Python return value (or the raised error message) with the trace of
state-changing client calls issued, in issue order. -/
def restore_latest_clean_snapshot (restoreResult resolveResult : Except String Unit)
    (nowMillis : Int) (alerts : List Alert) (object_name : String) :
    Except String String × List HeliosCall :=
  match restoreScan alerts object_name with
  | none =>
    (Except.error ("CohesityHelios error: no anomalous object found by the given name " ++
      object_name ++ "."), [])
  | some alert =>
    if alert.id = "" then
      (Except.error ("CohesityHelios error: no anomalous object found by the given name " ++
        object_name ++ "."), [])
    else
      match buildRestoreRequest nowMillis (_get_property_dict alert.propertyList) with
      | Except.error e => (Except.error e, [])
      | Except.ok (request_payload, cluster_id) =>
        match restoreResult with
        | Except.error e => (Except.error e, [HeliosCall.restoreCall cluster_id request_payload])
        | Except.ok _ =>
          match resolveResult with
          | Except.error e =>
            (Except.error e,
             [HeliosCall.restoreCall cluster_id request_payload, HeliosCall.resolveCall alert.id])
          | Except.ok _ =>
            (Except.ok ("Restored object " ++ object_name ++ "."),
             [HeliosCall.restoreCall cluster_id request_payload, HeliosCall.resolveCall alert.id])

/-- The selection criterion of the restore scan. -/
def restoreMatches (object_name : String) (alert : Alert) : Prop :=
  alert.severity = "kCritical" ∧ alert.alertState = "kOpen" ∧ alertObjectName alert = object_name

instance (object_name : String) (alert : Alert) : Decidable (restoreMatches object_name alert) := by
  unfold restoreMatches; infer_instance

section ScanLemmas

theorem ignoreScan_first_match (pre post : List Alert) (alert : Alert) (object_name : String)
    (hpre : ∀ b ∈ pre, alertObjectName b ≠ object_name)
    (hmatch : alertObjectName alert = object_name) :
    ignoreScanAlertId (pre ++ alert :: post) object_name = alert.id := by
  induction pre with
  | nil => simp [ignoreScanAlertId, hmatch]
  | cons b t ih =>
    have hb : alertObjectName b ≠ object_name := hpre b (List.mem_cons_self b t)
    have ht : ∀ x ∈ t, alertObjectName x ≠ object_name :=
      fun x hx => hpre x (List.mem_cons_of_mem b hx)
    simpa [ignoreScanAlertId, hb] using ih ht

theorem ignoreScan_no_match (alerts : List Alert) (object_name : String)
    (hnomatch : ∀ b ∈ alerts, alertObjectName b ≠ object_name) :
    ignoreScanAlertId alerts object_name = "" := by
  induction alerts with
  | nil => rfl
  | cons b t ih =>
    have hb : alertObjectName b ≠ object_name := hnomatch b (List.mem_cons_self b t)
    have ht : ∀ x ∈ t, alertObjectName x ≠ object_name :=
      fun x hx => hnomatch x (List.mem_cons_of_mem b hx)
    simpa [ignoreScanAlertId, hb] using ih ht

theorem restoreScan_first_match (pre post : List Alert) (alert : Alert) (object_name : String)
    (hpre : ∀ b ∈ pre, ¬ restoreMatches object_name b)
    (hmatch : restoreMatches object_name alert) :
    restoreScan (pre ++ alert :: post) object_name = some alert := by
  induction pre with
  | nil =>
    obtain ⟨h1, h2, h3⟩ := hmatch
    simp [restoreScan, h1, h2, h3]
  | cons b t ih =>
    have hb : ¬ restoreMatches object_name b := hpre b (List.mem_cons_self b t)
    have ht : ∀ x ∈ t, ¬ restoreMatches object_name x :=
      fun x hx => hpre x (List.mem_cons_of_mem b hx)
    by_cases hcs : b.severity = "kCritical" ∧ b.alertState = "kOpen"
    · have hobj : ¬ alertObjectName b = object_name := fun h => hb ⟨hcs.1, hcs.2, h⟩
      simpa [restoreScan, hcs, hobj] using ih ht
    · simpa [restoreScan, hcs] using ih ht

theorem restoreScan_sound (alerts : List Alert) (object_name : String) (alert : Alert)
    (h : restoreScan alerts object_name = some alert) :
    restoreMatches object_name alert := by
  induction alerts with
  | nil => simp [restoreScan] at h
  | cons b t ih =>
    by_cases hcs : b.severity = "kCritical" ∧ b.alertState = "kOpen"
    · by_cases hobj : alertObjectName b = object_name
      · have hb : b = alert := by simpa [restoreScan, hcs, hobj] using h
        exact hb ▸ ⟨hcs.1, hcs.2, hobj⟩
      · exact ih (by simpa [restoreScan, hcs, hobj] using h)
    · exact ih (by simpa [restoreScan, hcs] using h)

theorem restoreScan_no_match (alerts : List Alert) (object_name : String)
    (hnomatch : ∀ b ∈ alerts, alertObjectName b ≠ object_name) :
    restoreScan alerts object_name = none := by
  induction alerts with
  | nil => rfl
  | cons b t ih =>
    have hb : alertObjectName b ≠ object_name := hnomatch b (List.mem_cons_self b t)
    have ht : ∀ x ∈ t, alertObjectName x ≠ object_name :=
      fun x hx => hnomatch x (List.mem_cons_of_mem b hx)
    by_cases hcs : b.severity = "kCritical" ∧ b.alertState = "kOpen"
    · simpa [restoreScan, hcs, hb] using ih ht
    · simpa [restoreScan, hcs] using ih ht

end ScanLemmas

/-- Concrete fixture: open warning alert on object `vm-a` with id `1`. -/
def alertVmA : Alert :=
  { id := "1", alertCode := "CE01516011", severity := "kWarning", alertState := "kOpen",
    latestTimestampUsecs := some 0, propertyList := [("object", "vm-a")],
    alertDocument := { alertName := "a", alertDescription := "d", alertCause := "c" } }

/-- Concrete fixture: open warning alert on object `vm-b` with id `2`. -/
def alertVmB : Alert :=
  { id := "2", alertCode := "CE01516011", severity := "kWarning", alertState := "kOpen",
    latestTimestampUsecs := some 0, propertyList := [("object", "vm-b")],
    alertDocument := { alertName := "a", alertDescription := "d", alertCause := "c" } }

/-- Concrete fixture: open critical alert on object `vm-b` with id `4` and a
full restore property set. -/
def alertCritVmB : Alert :=
  { id := "4", alertCode := "CE01516011", severity := "kCritical", alertState := "kOpen",
    latestTimestampUsecs := some 0,
    propertyList := [("object", "vm-b"), ("jobId", "4"), ("jobInstanceId", "7"),
      ("jobStartTimeUsecs", "160"), ("entityId", "9"), ("cid", "c1")],
    alertDocument := { alertName := "a", alertDescription := "d", alertCause := "c" } }

/-- The restore payload `buildRestoreRequest` derives from `alertCritVmB` at
`nowMillis = 0`. -/
def payloadCritVmB : RestorePayload :=
  { name := "Cortex_XSOAR_triggered_restore_task_vm-b", taskType := "kRecoverVMs",
    poweredOn := true, prefixStr := "Recover-", suffixStr := "-VM-0",
    jobId := 4, jobRunId := 7, startedTimeUsecs := 160,
    sourceName := "vm-b", protectionSourceId := 9 }

/-- C3: the ignore operation scans the fetched list in response order and
suppresses exactly the first alert whose flattened `object` property equals
the target name (given that the matched alert has a non-empty id, as the code
signals not-found through `alert_id == ''`): the call trace is exactly one
suppress call carrying that alert's id, whatever the suppress call's outcome. -/
theorem claim_C3_ignore_first_match (suppressResult : Except String Unit)
    (pre post : List Alert) (alert : Alert) (object_name : String)
    (hpre : ∀ b ∈ pre, alertObjectName b ≠ object_name)
    (hmatch : alertObjectName alert = object_name)
    (hid : alert.id ≠ "") :
    (ignore_ransomware_anomaly_command suppressResult (pre ++ alert :: post) object_name).2 =
      [HeliosCall.suppressCall alert.id] := by
  have hscan := ignoreScan_first_match pre post alert object_name hpre hmatch
  cases suppressResult with
  | error e => simp [ignore_ransomware_anomaly_command, hscan, hid]
  | ok u => simp [ignore_ransomware_anomaly_command, hscan, hid]

/-- Witness for C3 at the claim's concrete example: alerts
`[{id 1, object vm-a}, {id 2, object vm-b}]`, target `vm-b`, suppress id `2`. -/
theorem claim_C3_ignore_first_match_witness :
    (ignore_ransomware_anomaly_command (Except.ok ()) [alertVmA, alertVmB] "vm-b").2 =
      [HeliosCall.suppressCall "2"] := by
  have h := claim_C3_ignore_first_match (Except.ok ()) [alertVmA] [] alertVmB "vm-b"
    (by intro b hb; fin_cases hb; decide) (by decide) (by decide)
  simpa [alertVmB] using h

/-- C4: the restore scan selects the first alert in response order that has
severity `kCritical`, state `kOpen` and a flattened `object` property equal to
the target name; every selected alert satisfies all three constraints, so an
alert failing the severity or state constraint is never selected. -/
theorem claim_C4_restore_selection (object_name : String) (pre post alerts : List Alert)
    (alert selected : Alert)
    (hpre : ∀ b ∈ pre, ¬ restoreMatches object_name b)
    (hmatch : restoreMatches object_name alert)
    (hsel : restoreScan alerts object_name = some selected) :
    restoreScan (pre ++ alert :: post) object_name = some alert ∧
      restoreMatches object_name selected :=
  ⟨restoreScan_first_match pre post alert object_name hpre hmatch,
   restoreScan_sound alerts object_name selected hsel⟩

/-- Witness for C4: a `kWarning` alert on `vm-b` precedes a `kCritical` open
alert on `vm-b`; the scan skips the warning alert and selects the critical one. -/
theorem claim_C4_restore_selection_witness :
    restoreScan [alertVmB, alertCritVmB] "vm-b" = some alertCritVmB ∧
      restoreMatches "vm-b" alertCritVmB := by
  have h := claim_C4_restore_selection "vm-b" [alertVmB] [] [alertVmB, alertCritVmB]
    alertCritVmB alertCritVmB
    (by intro b hb; fin_cases hb; decide) (by decide) (by decide)
  simpa using h

/-- C5: when no fetched alert carries the requested object name, both the
ignore and the restore operation raise a not-found `ValueError` whose message
contains the object name (it appears literally between the fixed message
pieces), and neither issues any state-changing call (empty call trace). -/
theorem claim_C5_no_match_not_found (suppressResult restoreResult resolveResult : Except String Unit)
    (nowMillis : Int) (alerts : List Alert) (object_name : String)
    (hnomatch : ∀ b ∈ alerts, alertObjectName b ≠ object_name) :
    ignore_ransomware_anomaly_command suppressResult alerts object_name =
      (Except.error ("CohesityHelios error: no anomalous object found by the given name: " ++
        object_name ++ ". "), []) ∧
    restore_latest_clean_snapshot restoreResult resolveResult nowMillis alerts object_name =
      (Except.error ("CohesityHelios error: no anomalous object found by the given name " ++
        object_name ++ "."), []) := by
  have hig := ignoreScan_no_match alerts object_name hnomatch
  have hre := restoreScan_no_match alerts object_name hnomatch
  constructor
  · simp [ignore_ransomware_anomaly_command, hig]
  · simp [restore_latest_clean_snapshot, hre]

/-- Witness for C5: the fetched list holds only an alert on `vm-a` and the
request names `vm-x`. -/
theorem claim_C5_no_match_not_found_witness :
    ignore_ransomware_anomaly_command (Except.ok ()) [alertVmA] "vm-x" =
      (Except.error ("CohesityHelios error: no anomalous object found by the given name: " ++
        "vm-x" ++ ". "), []) ∧
    restore_latest_clean_snapshot (Except.ok ()) (Except.ok ()) 0 [alertVmA] "vm-x" =
      (Except.error ("CohesityHelios error: no anomalous object found by the given name " ++
        "vm-x" ++ "."), []) :=
  claim_C5_no_match_not_found (Except.ok ()) (Except.ok ()) (Except.ok ()) 0 [alertVmA] "vm-x"
    (by intro b hb; fin_cases hb; decide)

/-- C6: in the restore operation, the resolve call is attempted only after the
restore submission succeeded: if the restore call raises, the trace holds the
restore call only (no resolve call) and the restore failure is surfaced; if the
restore call succeeds and the resolve call raises, the surfaced error is the
resolve failure and the trace shows restore before resolve. -/
theorem claim_C6_restore_then_resolve (restoreResult resolveResult : Except String Unit)
    (nowMillis : Int) (alerts : List Alert) (object_name : String) (alert : Alert)
    (payload : RestorePayload) (cluster_id : String)
    (hscan : restoreScan alerts object_name = some alert)
    (hid : alert.id ≠ "")
    (hbuild : buildRestoreRequest nowMillis (_get_property_dict alert.propertyList) =
      Except.ok (payload, cluster_id)) :
    (∀ e, restoreResult = Except.error e →
      restore_latest_clean_snapshot restoreResult resolveResult nowMillis alerts object_name =
        (Except.error e, [HeliosCall.restoreCall cluster_id payload])) ∧
    (∀ e, restoreResult = Except.ok () → resolveResult = Except.error e →
      restore_latest_clean_snapshot restoreResult resolveResult nowMillis alerts object_name =
        (Except.error e,
         [HeliosCall.restoreCall cluster_id payload, HeliosCall.resolveCall alert.id])) := by
  constructor
  · intro e he
    subst he
    simp [restore_latest_clean_snapshot, hscan, hid, hbuild]
  · intro e hok he
    subst hok; subst he
    simp [restore_latest_clean_snapshot, hscan, hid, hbuild]

/-- Witness for C6 at a concrete failing restore call: no resolve call is in
the trace and the restore failure is surfaced. -/
theorem claim_C6_restore_then_resolve_witness :
    restore_latest_clean_snapshot (Except.error "restore failed") (Except.ok ()) 0
        [alertCritVmB] "vm-b" =
      (Except.error "restore failed", [HeliosCall.restoreCall "c1" payloadCritVmB]) :=
  (claim_C6_restore_then_resolve (Except.error "restore failed") (Except.ok ()) 0
    [alertCritVmB] "vm-b" alertCritVmB payloadCritVmB "c1"
    (by decide) (by decide) (by rfl)).1 "restore failed" rfl

/-- Civil date (year, month, day) of a day count relative to 1970-01-01 in
the proleptic Gregorian calendar (the standard era-decomposition algorithm);
models the calendar arithmetic inside `datetime`. -/
def civilFromDays (z0 : Int) : Int × Nat × Nat :=
  let z := z0 + 719468
  let era := (if 0 ≤ z then z else z - 146096) / 146097
  let doe := (z - era * 146097).toNat
  let yoe := (doe - doe / 1460 + doe / 36524 - doe / 146096) / 365
  let doy := doe - (365 * yoe + yoe / 4 - yoe / 100)
  let mp := (5 * doy + 2) / 153
  let d := doy - (153 * mp + 2) / 5 + 1
  let m := if mp < 10 then mp + 3 else mp - 9
  (era * 400 + (yoe : Int) + (if m ≤ 2 then 1 else 0), m, d)

/-- Zero-padded two-digit decimal rendering (strftime `%m`, `%d`, `%H`, `%M`,
`%S`). -/
def pad2 (n : Nat) : String := if n < 10 then "0" ++ toString n else toString n

/-- Zero-padded four-digit decimal year rendering (strftime `%Y`). -/
def pad4 (y : Int) : String :=
  if y < 0 then "-" ++ toString (-y)
  else if y < 10 then "000" ++ toString y
  else if y < 100 then "00" ++ toString y
  else if y < 1000 then "0" ++ toString y
  else toString y

/-- strftime with the module's `DATE_FORMAT` (`%Y-%m-%dT%H:%M:%SZ`) applied to
the civil datetime of an epoch-second count (no leap seconds, matching Unix
time); the trailing `Z` is a fixed literal of the format string. -/
def formatTimestampZ (secs : Int) : String :=
  let days := Int.fdiv secs 86400
  let sod := (Int.fmod secs 86400).toNat
  let ymd := civilFromDays days
  pad4 ymd.1 ++ "-" ++ pad2 ymd.2.1 ++ "-" ++ pad2 ymd.2.2 ++ "T" ++
    pad2 (sod / 3600) ++ ":" ++ pad2 (sod % 3600 / 60) ++ ":" ++ pad2 (sod % 60) ++ "Z"

/-- `datetime.fromtimestamp(secs).strftime(DATE_FORMAT)`: `fromtimestamp`
without a tz argument converts the epoch timestamp to the host-local civil
time, so the host timezone offset (`tzOffsetSecs`, seconds east of UTC) is
added before formatting. -/
def fromtimestamp_strftime (tzOffsetSecs : Int) (secs : Int) : String :=
  formatTimestampZ (secs + tzOffsetSecs)

/-- The occurrence-time pipeline of `create_ransomware_incident`:
`get_date_time_from_millis(alert.get("latestTimestampUsecs", 0) / 1000).strftime(DATE_FORMAT)`,
i.e. microseconds to epoch seconds (strftime `%S` floors the fractional
part), then `fromtimestamp` in the host-local timezone, then strftime. -/
def occurrenceTimeString (tzOffsetSecs : Int) (latestTimestampUsecs : Option Nat) : String :=
  fromtimestamp_strftime tzOffsetSecs ((latestTimestampUsecs.getD 0) / 1000000 : Nat)

/-- The occurrence-time derivation as the spec states it (C7): the same
microsecond count rendered as a UTC ISO-8601 timestamp with second precision
in the format `%Y-%m-%dT%H:%M:%SZ`. -/
def specOccurrenceTimeUTC (latestTimestampUsecs : Option Nat) : String :=
  formatTimestampZ ((latestTimestampUsecs.getD 0) / 1000000 : Nat)

/-- The XSOAR incident dict built by `create_ransomware_incident`;
`incidentType` models the `type` key and `rawJSON` carries the source alert
(standing for `json.dumps(alert)`). -/
structure Incident where
  name : String
  incidentType : String
  event_id : String
  occurred : String
  alert_description : String
  alert_cause : String
  anomalous_object : Option String
  environment : Option String
  anomaly_strength : Option String
  rawJSON : Alert
  severity : IncidentSeverity
deriving DecidableEq, Repr

/-- `create_ransomware_incident`: maps one alert to one incident record.
`tzOffsetSecs` is the host-local timezone offset that
`datetime.fromtimestamp` applies inside the occurrence-time conversion. -/
def create_ransomware_incident (tzOffsetSecs : Int) (alert : Alert) : Incident :=
  let property_dict := _get_property_dict alert.propertyList
  { name := alert.alertDocument.alertName
    incidentType := "Cohesity-Helios-Ransomware-Incident"
    event_id := alert.id
    occurred := occurrenceTimeString tzOffsetSecs alert.latestTimestampUsecs
    alert_description := alert.alertDocument.alertDescription
    alert_cause := alert.alertDocument.alertCause
    anomalous_object := property_dict "object"
    environment := property_dict "environment"
    anomaly_strength := property_dict "anomalyStrength"
    rawJSON := alert
    severity := convert_to_demisto_severity_int alert.severity }

/-- Concrete fixture: alert with no `latestTimestampUsecs` field (the mapper
substitutes 0). -/
def alertNoTimestamp : Alert :=
  { id := "5", alertCode := "CE01516011", severity := "kInfo", alertState := "kOpen",
    latestTimestampUsecs := none, propertyList := [],
    alertDocument := { alertName := "a", alertDescription := "d", alertCause := "c" } }

/-- C7 (code bug): the incident mapper derives the occurrence time with
`datetime.fromtimestamp`, which converts to the HOST-LOCAL civil time, and
then appends a literal `Z`; on a host one hour east of UTC (offset +3600 s) an
alert without `latestTimestampUsecs` (treated as 0) yields
`1970-01-01T01:00:00Z`, while the UTC conversion the claim (and the
`DATE_FORMAT` comment) states yields `1970-01-01T00:00:00Z`.  The two agree
exactly when the host offset is zero (last conjunct). -/
theorem claim_C7_occurrence_time_local_not_utc :
    (create_ransomware_incident 3600 alertNoTimestamp).occurred = "1970-01-01T01:00:00Z" ∧
    specOccurrenceTimeUTC alertNoTimestamp.latestTimestampUsecs = "1970-01-01T00:00:00Z" ∧
    (create_ransomware_incident 3600 alertNoTimestamp).occurred ≠
      specOccurrenceTimeUTC alertNoTimestamp.latestTimestampUsecs ∧
    (create_ransomware_incident 0 alertNoTimestamp).occurred =
      specOccurrenceTimeUTC alertNoTimestamp.latestTimestampUsecs := by
  refine ⟨?_, ?_, ?_, ?_⟩ <;> decide

/-- A `demisto` host-API effect issued by `fetch_incidents_command`, in issue
order. -/
inductive DemistoEffect where
  | setLastRun (start_time : Int)
  | incidents (incs : List Incident)
deriving DecidableEq, Repr

/-- `fetch_incidents_command`: `last_run` is the stored watermark
(`demisto.getLastRun().get('start_time')`), `nowMillis` the cycle's clock
reading in epoch ms (behind both `datetime.now()` and `get_current_millis()`
under a sequential non-skewed clock), and `resp` the raw service response that
`client.get_ransomware_alerts` filters (`max_fetch` only parametrizes that
request).  Returns the fetch window `(start_time_millis, end_time_millis)`
handed to the client, together with the ordered host-effect trace. -/
def fetch_incidents_command (tzOffsetSecs : Int) (last_run : Option Int) (nowMillis : Int)
    (resp : List Alert) : (Int × Int) × List DemistoEffect :=
  let start_time_millis := match last_run with
    | some t => t
    | none => nowMillis - 7 * 24 * 60 * 60 * 1000
  let end_time_millis := nowMillis
  let ransomware_resp := get_ransomware_alerts resp
  let incidents := ransomware_resp.map (create_ransomware_incident tzOffsetSecs)
  ((start_time_millis, end_time_millis),
   [DemistoEffect.setLastRun end_time_millis, DemistoEffect.incidents incidents])

/-- C2: the fetch window starts at the stored watermark when present and at
now minus 7 days (604800000 ms) otherwise, ends at now, and after the fetch
the watermark is unconditionally set to the window's end time — for every
response, before the incidents are pushed to the host sink (the effect trace
is exactly `setLastRun` then `incidents`). -/
theorem claim_C2_fetch_window_and_watermark (tzOffsetSecs : Int) (last_run : Option Int)
    (nowMillis : Int) (resp : List Alert) :
    (∀ t, last_run = some t →
      (fetch_incidents_command tzOffsetSecs last_run nowMillis resp).1.1 = t) ∧
    (last_run = none →
      (fetch_incidents_command tzOffsetSecs last_run nowMillis resp).1.1 = nowMillis - 604800000) ∧
    (fetch_incidents_command tzOffsetSecs last_run nowMillis resp).1.2 = nowMillis ∧
    (fetch_incidents_command tzOffsetSecs last_run nowMillis resp).2 =
      [DemistoEffect.setLastRun nowMillis,
       DemistoEffect.incidents
         ((get_ransomware_alerts resp).map (create_ransomware_incident tzOffsetSecs))] := by
  refine ⟨?_, ?_, rfl, rfl⟩
  · intro t ht; subst ht; rfl
  · intro h; subst h; norm_num [fetch_incidents_command]

/-- Witness for C2: watermark present (`5`) and absent at `now = 100` with an
empty response. -/
theorem claim_C2_fetch_window_and_watermark_witness :
    (fetch_incidents_command 0 (some 5) 100 []).1.1 = 5 ∧
    (fetch_incidents_command 0 none 100 []).1.1 = 100 - 604800000 ∧
    (fetch_incidents_command 0 (some 5) 100 []).1.2 = 100 ∧
    (fetch_incidents_command 0 (some 5) 100 []).2 =
      [DemistoEffect.setLastRun 100, DemistoEffect.incidents []] := by
  refine ⟨(claim_C2_fetch_window_and_watermark 0 (some 5) 100 []).1 5 rfl,
    (claim_C2_fetch_window_and_watermark 0 none 100 []).2.1 rfl,
    (claim_C2_fetch_window_and_watermark 0 (some 5) 100 []).2.2.1, ?_⟩
  have h := (claim_C2_fetch_window_and_watermark 0 (some 5) 100 []).2.2.2
  simpa [get_ransomware_alerts] using h

/-- A Python list object as passed to `Client.get_ransomware_alerts`: its
object identity (`id()`) together with its elements.  Python `is` / `is not`
compares identities, never contents. -/
structure PyList where
  oid : Nat
  val : List String
deriving DecidableEq, Repr

/-- Python `x is not y` on list objects: identity inequality. -/
def pyIsNot (x y : PyList) : Bool := x.oid ≠ y.oid

/-- A request-parameter value of `Client.get_ransomware_alerts`. -/
inductive ParamVal where
  | nat (n : Nat)
  | int (i : Int)
  | str (s : String)
  | strList (l : List String)
  | boolVal (b : Bool)
deriving DecidableEq, Repr

/-- Python dict assignment `d[k] = v` on the `request_params` dict (modelled
as a lookup function). -/
def dictAssign (d : String → Option ParamVal) (key : String) (v : ParamVal) :
    String → Option ParamVal :=
  fun k => if k = key then some v else d k

/-- The `request_params` construction of `Client.get_ransomware_alerts`
(lines 38-59).  Every guard `arg is not []` compares the argument's object
identity with a FRESH empty-list object created by that very line's `[]`
literal (`lit1` .. `lit5` are those five fresh identities). -/
def get_ransomware_alerts_request_params (start_time_millis end_time_millis : Option Int)
    (max_fetch : Nat)
    (alert_ids alert_state_list alert_severity_list region_ids cluster_ids : PyList)
    (lit1 lit2 lit3 lit4 lit5 : Nat) : String → Option ParamVal :=
  let d : String → Option ParamVal := fun k =>
    if k = "maxAlerts" then some (ParamVal.nat max_fetch)
    else if k = "alertCategoryList" then some (ParamVal.str "kSecurity")
    else if k = "alertStateList" then some (ParamVal.str "kOpen")
    else if k = "_includeTenantInfo" then some (ParamVal.boolVal true)
    else none
  let d := match start_time_millis with
    | some t => dictAssign d "startDateUsecs" (ParamVal.int (t * 1000))
    | none => d
  let d := match end_time_millis with
    | some t => dictAssign d "endDateUsecs" (ParamVal.int (t * 1000))
    | none => d
  let d := if pyIsNot alert_ids ⟨lit1, []⟩ then
    dictAssign d "alertIdList" (ParamVal.strList alert_ids.val) else d
  let d := if pyIsNot alert_state_list ⟨lit2, []⟩ then
    dictAssign d "alertStateList" (ParamVal.strList alert_state_list.val) else d
  let d := if pyIsNot alert_severity_list ⟨lit3, []⟩ then
    dictAssign d "alertSeverityList" (ParamVal.strList alert_severity_list.val) else d
  let d := if pyIsNot region_ids ⟨lit4, []⟩ then
    dictAssign d "region_ids" (ParamVal.strList region_ids.val) else d
  let d := if pyIsNot cluster_ids ⟨lit5, []⟩ then
    dictAssign d "clusterIdentifiers" (ParamVal.strList cluster_ids.val) else d
  d

/-- C10: each `[]` literal in a guard creates a fresh list object, so its
identity differs from every pre-existing argument object (hypotheses
`h1`-`h5`) and every guard `arg is not []` evaluates to true; hence all five
filter keys are always written into the request params, and in particular the
default `"alertStateList": "kOpen"` entry is always overwritten with the
`alert_state_list` argument value — the empty list when no state filter was
supplied. -/
theorem claim_C10_filter_guards_always_true (start_time_millis end_time_millis : Option Int)
    (max_fetch : Nat)
    (alert_ids alert_state_list alert_severity_list region_ids cluster_ids : PyList)
    (lit1 lit2 lit3 lit4 lit5 : Nat)
    (h1 : lit1 ≠ alert_ids.oid) (h2 : lit2 ≠ alert_state_list.oid)
    (h3 : lit3 ≠ alert_severity_list.oid) (h4 : lit4 ≠ region_ids.oid)
    (h5 : lit5 ≠ cluster_ids.oid) :
    get_ransomware_alerts_request_params start_time_millis end_time_millis max_fetch
        alert_ids alert_state_list alert_severity_list region_ids cluster_ids
        lit1 lit2 lit3 lit4 lit5 "alertIdList" = some (ParamVal.strList alert_ids.val) ∧
    get_ransomware_alerts_request_params start_time_millis end_time_millis max_fetch
        alert_ids alert_state_list alert_severity_list region_ids cluster_ids
        lit1 lit2 lit3 lit4 lit5 "alertStateList" = some (ParamVal.strList alert_state_list.val) ∧
    get_ransomware_alerts_request_params start_time_millis end_time_millis max_fetch
        alert_ids alert_state_list alert_severity_list region_ids cluster_ids
        lit1 lit2 lit3 lit4 lit5 "alertSeverityList" = some (ParamVal.strList alert_severity_list.val) ∧
    get_ransomware_alerts_request_params start_time_millis end_time_millis max_fetch
        alert_ids alert_state_list alert_severity_list region_ids cluster_ids
        lit1 lit2 lit3 lit4 lit5 "region_ids" = some (ParamVal.strList region_ids.val) ∧
    get_ransomware_alerts_request_params start_time_millis end_time_millis max_fetch
        alert_ids alert_state_list alert_severity_list region_ids cluster_ids
        lit1 lit2 lit3 lit4 lit5 "clusterIdentifiers" = some (ParamVal.strList cluster_ids.val) := by
  have g1 : pyIsNot alert_ids ⟨lit1, []⟩ = true := by
    simp [pyIsNot]; exact fun h => h1 h.symm
  have g2 : pyIsNot alert_state_list ⟨lit2, []⟩ = true := by
    simp [pyIsNot]; exact fun h => h2 h.symm
  have g3 : pyIsNot alert_severity_list ⟨lit3, []⟩ = true := by
    simp [pyIsNot]; exact fun h => h3 h.symm
  have g4 : pyIsNot region_ids ⟨lit4, []⟩ = true := by
    simp [pyIsNot]; exact fun h => h4 h.symm
  have g5 : pyIsNot cluster_ids ⟨lit5, []⟩ = true := by
    simp [pyIsNot]; exact fun h => h5 h.symm
  cases start_time_millis <;> cases end_time_millis <;>
    simp [get_ransomware_alerts_request_params, dictAssign, g1, g2, g3, g4, g5]

/-- Witness for C10 at concrete objects: argument identities 1-5 (the state
list empty, as on a fetch with no state filter) and fresh literal
identities 6-10. -/
theorem claim_C10_filter_guards_always_true_witness :
    get_ransomware_alerts_request_params none none 20
        ⟨1, ["i1"]⟩ ⟨2, []⟩ ⟨3, ["kCritical"]⟩ ⟨4, ["r1"]⟩ ⟨5, ["c1"]⟩
        6 7 8 9 10 "alertIdList" = some (ParamVal.strList ["i1"]) ∧
    get_ransomware_alerts_request_params none none 20
        ⟨1, ["i1"]⟩ ⟨2, []⟩ ⟨3, ["kCritical"]⟩ ⟨4, ["r1"]⟩ ⟨5, ["c1"]⟩
        6 7 8 9 10 "alertStateList" = some (ParamVal.strList []) ∧
    get_ransomware_alerts_request_params none none 20
        ⟨1, ["i1"]⟩ ⟨2, []⟩ ⟨3, ["kCritical"]⟩ ⟨4, ["r1"]⟩ ⟨5, ["c1"]⟩
        6 7 8 9 10 "alertSeverityList" = some (ParamVal.strList ["kCritical"]) ∧
    get_ransomware_alerts_request_params none none 20
        ⟨1, ["i1"]⟩ ⟨2, []⟩ ⟨3, ["kCritical"]⟩ ⟨4, ["r1"]⟩ ⟨5, ["c1"]⟩
        6 7 8 9 10 "region_ids" = some (ParamVal.strList ["r1"]) ∧
    get_ransomware_alerts_request_params none none 20
        ⟨1, ["i1"]⟩ ⟨2, []⟩ ⟨3, ["kCritical"]⟩ ⟨4, ["r1"]⟩ ⟨5, ["c1"]⟩
        6 7 8 9 10 "clusterIdentifiers" = some (ParamVal.strList ["c1"]) :=
  claim_C10_filter_guards_always_true none none 20
    ⟨1, ["i1"]⟩ ⟨2, []⟩ ⟨3, ["kCritical"]⟩ ⟨4, ["r1"]⟩ ⟨5, ["c1"]⟩
    6 7 8 9 10
    (by decide) (by decide) (by decide) (by decide) (by decide)
